import Mathlib

/-!
Verification of the procurement-data aggregation pipeline.

This file gives a shallow embedding of the pipeline found in the handler
variants of the repository (rate-limited fetcher with retry, per-modality
fan-out, Supabase store gateway, cache-freshness policy, and the
dedup/filter/sort/paginate finalize step) and proves or refutes the
specified properties about it.  Dates and timestamps are modelled as
integers (days for calendar arithmetic, milliseconds for clock
arithmetic); JavaScript division is modelled over the rationals.
-/

/-! Section: raw upstream records and expiration derivation (saveToSupabase) -/

/-- Raw upstream record as consumed by saveToSupabase: the three dates that
drive expiration derivation, each possibly absent.  Dates are day numbers. -/
structure RawBid where
  dataEncerramentoProposta : Option Int
  dataAberturaProposta : Option Int
  dataPublicacaoPncp : Option Int
deriving DecidableEq

/-- Embedding of getDataExpiracao: close-date + 30 days, else open-date + 60,
else publication-date + 90, else today + 90. -/
def getDataExpiracao (bid : RawBid) (hoje : Int) : Int :=
  match bid.dataEncerramentoProposta with
  | some d => d + 30
  | none =>
    match bid.dataAberturaProposta with
    | some d => d + 60
    | none =>
      match bid.dataPublicacaoPncp with
      | some d => d + 90
      | none => hoje + 90

/-! Section: cache freshness policy (needsRefresh, updateCacheRecord) -/

/-- Embedding of needsRefresh: the freshness record for a key is either
absent or carries the last-refresh timestamp in milliseconds.  The code
computes the elapsed time in hours with floating division and compares it
against 6; division is modelled over the rationals. -/
def needsRefresh (record : Option Int) (agora : Int) : Bool :=
  match record with
  | none => true
  | some ultimaAtualizacao =>
    decide ((((agora - ultimaAtualizacao : Int) : ℚ) / (1000 * 60 * 60)) > 6)

/-- Claim C2: for every raw upstream record mapped during upsert, the
expiration date follows the fixed precedence close-date + 30, else
open-date + 60, else publication-date + 90, else now + 90; the first
available date wins and dates are never combined. -/
theorem getDataExpiracao_precedence (bid : RawBid) (hoje : Int) :
    (∀ d, bid.dataEncerramentoProposta = some d →
      getDataExpiracao bid hoje = d + 30) ∧
    (bid.dataEncerramentoProposta = none →
      ∀ d, bid.dataAberturaProposta = some d →
        getDataExpiracao bid hoje = d + 60) ∧
    (bid.dataEncerramentoProposta = none → bid.dataAberturaProposta = none →
      ∀ d, bid.dataPublicacaoPncp = some d →
        getDataExpiracao bid hoje = d + 90) ∧
    (bid.dataEncerramentoProposta = none → bid.dataAberturaProposta = none →
      bid.dataPublicacaoPncp = none →
      getDataExpiracao bid hoje = hoje + 90) := by
  obtain ⟨c, o, p⟩ := bid
  refine ⟨?_, ?_, ?_, ?_⟩ <;> intros <;> simp_all [getDataExpiracao]

/-- Witness for claim C2: a record carrying all three dates takes the
close-date + 30 branch, ignoring the other dates. -/
theorem getDataExpiracao_precedence_witness :
    getDataExpiracao ⟨some 100, some 200, some 300⟩ 0 = 100 + 30 :=
  (getDataExpiracao_precedence ⟨some 100, some 200, some 300⟩ 0).1 100 rfl

/-- Claim C4: needsRefresh returns true when no freshness record exists;
when one exists it returns true exactly when the elapsed milliseconds
exceed the fixed 6-hour staleness threshold. -/
theorem needsRefresh_spec (record : Option Int) (agora : Int) :
    (record = none → needsRefresh record agora = true) ∧
    (∀ ultimaAtualizacao, record = some ultimaAtualizacao →
      (needsRefresh record agora = true ↔
        agora - ultimaAtualizacao > 6 * (1000 * 60 * 60))) := by
  constructor
  · intro h
    simp [needsRefresh, h]
  · intro ultima h
    subst h
    simp only [needsRefresh, decide_eq_true_eq, gt_iff_lt]
    rw [lt_div_iff₀ (by norm_num : (0 : ℚ) < 1000 * 60 * 60)]
    constructor <;> intro h <;> exact_mod_cast h

/-- Witness for claim C4: a missing record forces a refresh, and a record
refreshed 25 000 000 ms ago (just under 7 hours) is stale. -/
theorem needsRefresh_spec_witness :
    needsRefresh none 0 = true ∧
    (needsRefresh (some 0) 25000000 = true ↔
      (25000000 : Int) - 0 > 6 * (1000 * 60 * 60)) :=
  ⟨(needsRefresh_spec none 0).1 rfl, (needsRefresh_spec (some 0) 25000000).2 0 rfl⟩

/-- Freshness bookkeeping row as stored in the cache_buscas table. -/
structure CacheRecord where
  chave_busca : String
  total_encontrado : Nat
  ultima_atualizacao : Int
deriving DecidableEq

/-- Embedding of updateCacheRecord: upsert on chave_busca writes the key,
the result count and a fresh last-refresh timestamp. -/
def updateCacheRecord (store : String → Option CacheRecord) (cacheKey : String)
    (totalEncontrado : Nat) (agora : Int) : String → Option CacheRecord :=
  fun k => if k = cacheKey then some ⟨cacheKey, totalEncontrado, agora⟩ else store k

/-- Embedding of the writeback tail of a refresh cycle in the hybrid handler:
saveToSupabase and updateCacheRecord run only under the guard
pncpBids.length > 0, so a cycle that fetched nothing writes nothing. -/
def refreshCycleWriteback (pncpBids : List RawBid)
    (store : String → Option CacheRecord) (cacheKey : String)
    (totalFromPNCP : Nat) (agora : Int) : String → Option CacheRecord :=
  if pncpBids.length > 0 then updateCacheRecord store cacheKey totalFromPNCP agora
  else store

/-- Counterexample to claim C5: a completed refresh cycle that fetched zero
records from the upstream leaves the freshness store untouched; against an
empty store the cache key still has no record afterwards, so no
CacheFreshnessRecord with an updated timestamp was written. -/
theorem refresh_zero_records_writes_nothing :
    refreshCycleWriteback [] (fun _ => none) "SP_all_none_all" 0 1000
      "SP_all_none_all" = none := rfl

/-- Claim C5 as amended: the refresh cycle records a new freshness row with
the current timestamp only when it fetched at least one record; a cycle
that fetched zero records leaves the freshness store unchanged. -/
theorem refreshCycleWriteback_spec (pncpBids : List RawBid)
    (store : String → Option CacheRecord) (cacheKey : String)
    (totalFromPNCP : Nat) (agora : Int) :
    (pncpBids ≠ [] →
      refreshCycleWriteback pncpBids store cacheKey totalFromPNCP agora cacheKey =
        some ⟨cacheKey, totalFromPNCP, agora⟩) ∧
    (pncpBids = [] →
      refreshCycleWriteback pncpBids store cacheKey totalFromPNCP agora = store) := by
  constructor
  · intro h
    cases pncpBids with
    | nil => exact absurd rfl h
    | cons b bs => simp [refreshCycleWriteback, updateCacheRecord]
  · intro h
    subst h
    rfl

/-- Witness for claim C5 as amended: one fetched record makes the cycle
write the freshness row, and an empty fetch leaves the store as it was. -/
theorem refreshCycleWriteback_spec_witness :
    refreshCycleWriteback [⟨none, none, none⟩] (fun _ => none) "k" 7 99 "k" =
      some ⟨"k", 7, 99⟩ ∧
    refreshCycleWriteback [] (fun _ => none) "k" 7 99 = (fun _ => none) :=
  ⟨(refreshCycleWriteback_spec [⟨none, none, none⟩] (fun _ => none) "k" 7 99).1
      (by simp),
    (refreshCycleWriteback_spec [] (fun _ => none) "k" 7 99).2 rfl⟩

/-- JavaScript falsy-or on an optional string: undefined and the empty
string both fall back to the default. -/
def jsOrStr (v : Option String) (d : String) : String :=
  match v with
  | none => d
  | some s => if s = "" then d else s

/-- Embedding of generateCacheKey from the Supabase-backed hybrid handler:
the key serializes uf, city, keyword and modality. -/
def generateCacheKey (uf city keyword modality : Option String) : String :=
  jsOrStr uf "all" ++ "_" ++ jsOrStr city "all" ++ "_" ++
    jsOrStr keyword "none" ++ "_" ++ jsOrStr modality "all"

/-- Embedding of getCacheKey from the in-memory cache variant: the key
serializes the sorted base params, the sorted modality codes, the keyword
and the page. -/
def getCacheKey (paramsString : String) (modalityCodes : List String)
    (keyword page : Option String) : String :=
  paramsString ++ "_mod[" ++
    String.intercalate "," (List.insertionSort (fun a b => a ≤ b) modalityCodes) ++
    "]_kw[" ++ jsOrStr keyword "none" ++ "]_p" ++ jsOrStr page "1"

/-- Counterexample to claim C6: two query specs that agree on geography and
keyword but select different modality codes get different cache keys, under
both cache-key functions. -/
theorem cacheKey_includes_modality_counterexample :
    generateCacheKey (some "SP") none (some "obras") (some "1") ≠
      generateCacheKey (some "SP") none (some "obras") (some "2") ∧
    getCacheKey "uf=SP" ["1"] (some "obras") none ≠
      getCacheKey "uf=SP" ["2"] (some "obras") none := by
  constructor <;> decide

/-- Claim C6 as amended: the cache key is a function of geography, keyword
AND the modality selection together; modality is part of the key rather
than excluded from it (and getCacheKey further includes the page). -/
theorem cacheKey_components_spec (uf1 uf2 city1 city2 kw1 kw2 m1 m2 : Option String) :
    jsOrStr uf1 "all" = jsOrStr uf2 "all" →
    jsOrStr city1 "all" = jsOrStr city2 "all" →
    jsOrStr kw1 "none" = jsOrStr kw2 "none" →
    jsOrStr m1 "all" = jsOrStr m2 "all" →
    generateCacheKey uf1 city1 kw1 m1 = generateCacheKey uf2 city2 kw2 m2 := by
  intro h1 h2 h3 h4
  simp [generateCacheKey, h1, h2, h3, h4]

/-- Witness for claim C6 as amended: an absent field and an empty-string
field normalize to the same component, giving equal keys. -/
theorem cacheKey_components_spec_witness :
    generateCacheKey (some "SP") none (some "obras") none =
      generateCacheKey (some "SP") (some "") (some "obras") (some "") :=
  cacheKey_components_spec (some "SP") (some "SP") none (some "") (some "obras")
    (some "obras") none (some "") (by decide) (by decide) (by decide) (by decide)

/-! Section: rate-limited fetcher with retry (fetchWithRetry) -/

/-- Parsed successful page body from the upstream API. -/
structure ParsedPage where
  data : List Nat
  totalRegistros : Nat
  totalPaginas : Nat
deriving DecidableEq

/-- One physical HTTP response as seen by fetchWithRetry. -/
inductive FetchResp where
  | okBody (p : ParsedPage)
  | okEmptyBody
  | noContent
  | tooManyRequests
  | httpError (status : Nat)
  | networkError
deriving DecidableEq

/-- Outcome of fetchWithRetry as observed by its caller: a parsed page, the
null returned after the loop runs out of attempts, or a re-thrown error. -/
inductive FetchOutcome where
  | success (p : ParsedPage)
  | nullResult
  | raised
deriving DecidableEq

/-- Embedding of the retry loop of fetchWithRetry.  One response is
consumed per attempt; the second component collects the delays awaited, in
order.  A 429 waits 1000 * 2 ^ attempt before the next attempt, a thrown
error waits 1000 * attempt unless it was the last attempt, which re-throws;
a 204 becomes an empty page; any other non-success falls through to the
next attempt; exhausting the attempts returns null. -/
def fetchAttempts (retries attempt : Nat) (responses : List FetchResp) :
    FetchOutcome × List Nat :=
  if attempt > retries then (.nullResult, [])
  else
    match responses with
    | [] => (.nullResult, [])
    | r :: rest =>
      match r with
      | .okBody p => (.success p, [])
      | .okEmptyBody => fetchAttempts retries (attempt + 1) rest
      | .noContent => (.success ⟨[], 0, 0⟩, [])
      | .tooManyRequests =>
        let w := 1000 * 2 ^ attempt
        let rec2 := fetchAttempts retries (attempt + 1) rest
        (rec2.1, w :: rec2.2)
      | .httpError _ => fetchAttempts retries (attempt + 1) rest
      | .networkError =>
        if attempt = retries then (.raised, [])
        else
          let w := 1000 * attempt
          let rec2 := fetchAttempts retries (attempt + 1) rest
          (rec2.1, w :: rec2.2)

/-- Embedding of fetchWithRetry with its default MAX_RETRIES = 3. -/
def fetchWithRetry (responses : List FetchResp) : FetchOutcome × List Nat :=
  fetchAttempts 3 1 responses

/-- Helper: the retry loop never looks past the remaining attempt budget,
so the outcome only depends on that prefix of the response stream. -/
theorem fetchAttempts_take (retries attempt : Nat) (responses : List FetchResp) :
    fetchAttempts retries attempt responses =
      fetchAttempts retries attempt (responses.take (retries + 1 - attempt)) := by
  induction responses generalizing attempt with
  | nil => simp
  | cons r rest ih =>
    by_cases hgt : attempt > retries
    · conv_lhs => rw [fetchAttempts.eq_def]
      conv_rhs => rw [fetchAttempts.eq_def]
      simp [if_pos hgt]
    · have hbudget : retries + 1 - attempt = (retries + 1 - (attempt + 1)) + 1 := by
        omega
      rw [hbudget, List.take_succ_cons]
      conv_lhs => rw [fetchAttempts.eq_def]
      conv_rhs => rw [fetchAttempts.eq_def]
      simp only [if_neg hgt]
      cases r with
      | okBody p => rfl
      | okEmptyBody => exact ih (attempt + 1)
      | noContent => rfl
      | tooManyRequests => simp only [ih (attempt + 1)]
      | httpError status => exact ih (attempt + 1)
      | networkError =>
        by_cases hlast : attempt = retries
        · simp [hlast]
        · simp only [if_neg hlast, ih (attempt + 1)]

/-- Counterexample to claim C7: after the retry ceiling is exhausted on
rate-limit responses the fetcher returns the plain null outcome, the very
same outcome produced by three generic HTTP 500 failures, so no
rate-limited error outcome is surfaced to the caller. -/
theorem fetchWithRetry_null_on_rate_limit_exhaustion :
    (fetchWithRetry [.tooManyRequests, .tooManyRequests, .tooManyRequests]).1 =
      FetchOutcome.nullResult ∧
    (fetchWithRetry [.httpError 500, .httpError 500, .httpError 500]).1 =
      FetchOutcome.nullResult := by
  constructor <;> rfl

/-- Claim C7 as amended: the fetcher makes at most 3 attempts (its result
only depends on the first 3 responses), a run of 429 responses waits
1000 * 2 ^ attempt before each subsequent attempt, and after the ceiling it
returns null, a generic failure outcome, rather than a distinguished
rate-limited error. -/
theorem fetchWithRetry_backoff_spec :
    (∀ responses : List FetchResp,
      fetchWithRetry responses = fetchWithRetry (responses.take 3)) ∧
    (∀ rest : List FetchResp,
      fetchWithRetry (.tooManyRequests :: .tooManyRequests :: .tooManyRequests :: rest) =
        (.nullResult, [1000 * 2 ^ 1, 1000 * 2 ^ 2, 1000 * 2 ^ 3])) := by
  constructor
  · intro responses
    exact fetchAttempts_take 3 1 responses
  · intro rest
    have h4 : fetchAttempts 3 4 rest = (.nullResult, []) := by
      rw [fetchAttempts.eq_def]
      simp
    simp [fetchWithRetry, fetchAttempts, h4]

/-! Section: per-modality fan-out (searchInPNCP) -/

/-- Embedding of the modality loop of searchInPNCP: each partition key
yields either its collected record list or a thrown error; the loop
appends successful lists to the accumulator and a catch block skips the
failed partitions, so nothing is recorded about them. -/
def searchInPNCP (outcomes : List (Except String (List Nat))) : List Nat :=
  outcomes.foldl
    (fun allBids modalityData =>
      match modalityData with
      | .ok data => allBids ++ data
      | .error _ => allBids)
    []

/-- Helper: the accumulator of the modality loop factors out on the left. -/
theorem searchInPNCP_foldl_acc (outcomes : List (Except String (List Nat)))
    (acc : List Nat) :
    outcomes.foldl
      (fun allBids modalityData =>
        match modalityData with
        | .ok data => allBids ++ data
        | .error _ => allBids)
      acc = acc ++ searchInPNCP outcomes := by
  induction outcomes generalizing acc with
  | nil => simp [searchInPNCP]
  | cons o rest ih =>
    cases o with
    | ok data =>
      rw [searchInPNCP, List.foldl_cons, List.foldl_cons]
      simp only []
      rw [ih (acc ++ data), ih ([] ++ data)]
      simp
    | error e =>
      rw [searchInPNCP, List.foldl_cons, List.foldl_cons]
      simp only []
      rw [ih acc, ih []]
      simp

/-- Counterexample to claim C3: with partition A succeeding with record 10,
partition B failing, and partition C succeeding with record 30, the
aggregate does keep the records of A and C, but it is exactly the
aggregate of a run where B succeeded with zero records: the result carries
no partition-error entry for B at all, let alone exactly one. -/
theorem searchInPNCP_no_partitionErrors_counterexample :
    searchInPNCP [.ok [10], .error "HTTP 500", .ok [30]] = [10, 30] ∧
    searchInPNCP [.ok [10], .error "HTTP 500", .ok [30]] =
      searchInPNCP [.ok [10], .ok [], .ok [30]] := by
  constructor <;> rfl

/-- Claim C3 as amended: a failing partition never fails the aggregation
and every record of every succeeding partition is still in the result; the
failure itself however is only logged and skipped: the aggregate is
identical to one where the failed partition returned zero records, and no
partition-error metadata exists in the result. -/
theorem searchInPNCP_partial_failure_spec
    (pre post : List (Except String (List Nat))) (e : String)
    (outcomes : List (Except String (List Nat))) (data : List Nat) :
    searchInPNCP (pre ++ .error e :: post) =
      searchInPNCP (pre ++ .ok [] :: post) ∧
    (Except.ok data ∈ outcomes → ∀ x ∈ data, x ∈ searchInPNCP outcomes) := by
  constructor
  · rw [searchInPNCP, searchInPNCP, List.foldl_append, List.foldl_append]
    rw [List.foldl_cons, List.foldl_cons]
    simp
  · intro hmem x hx
    induction outcomes with
    | nil => cases hmem
    | cons o rest ih =>
      cases hmem with
      | head =>
        rw [searchInPNCP, List.foldl_cons]
        simp only []
        rw [searchInPNCP_foldl_acc rest ([] ++ data)]
        simp [hx]
      | tail _ htail =>
        have hrec := ih htail
        rw [searchInPNCP, List.foldl_cons]
        cases o with
        | ok d2 =>
          simp only []
          rw [searchInPNCP_foldl_acc rest ([] ++ d2)]
          rw [searchInPNCP] at hrec
          simp [List.mem_append]
          exact Or.inr hrec
        | error e2 =>
          simp only []
          exact hrec

/-- Witness for claim C3 as amended: in the three-partition run with B
failing, record 30 of succeeding partition C is in the final aggregate. -/
theorem searchInPNCP_partial_failure_spec_witness :
    30 ∈ searchInPNCP [.ok [10], .error "HTTP 500", .ok [30]] :=
  (searchInPNCP_partial_failure_spec [] [] "x"
      [.ok [10], .error "HTTP 500", .ok [30]] [30]).2
    (by simp) 30 (by simp)

/-! Section: finalize sort step (sort by publication date descending) -/

/-- Millisecond timestamp a JavaScript Date constructor yields for a
possibly missing publication date field: a present date gives its
timestamp, and a null field coerces to the epoch, timestamp 0. -/
def jsTime (d : Option Int) : Int :=
  match d with
  | some t => t
  | none => 0

/-- Record as seen by the sort step of the aggregation handlers; tag is an
opaque payload used to track identity through the sort. -/
structure Bid14 where
  dataPublicacaoPncp : Option Int
  tag : Nat
deriving DecidableEq

/-- Comparator of the sort step: b may not precede a exactly when the
timestamp of b is at most the timestamp of a (descending by date). -/
def cmpDesc (a b : Bid14) : Prop :=
  jsTime b.dataPublicacaoPncp ≤ jsTime a.dataPublicacaoPncp

instance : DecidableRel cmpDesc := fun _ _ => Int.decLe _ _

instance : IsTotal Bid14 cmpDesc :=
  ⟨fun a b => le_total (jsTime b.dataPublicacaoPncp) (jsTime a.dataPublicacaoPncp)⟩

instance : IsTrans Bid14 cmpDesc :=
  ⟨fun _ _ _ hab hbc => le_trans hbc hab⟩

/-- Embedding of the sort call of the finalize step: a stable sort under
the descending-timestamp comparator, with missing dates keyed as 0. -/
def sortByDateDesc (l : List Bid14) : List Bid14 :=
  List.insertionSort cmpDesc l

/-- Counterexample to claim C8: a missing publication date is keyed as the
epoch rather than as minus infinity, so a record dated 1969-12-31 (one day
before the epoch) is sorted AFTER the record with a missing date: the
missing-date record is not placed after all dated records. -/
theorem sort_missing_date_not_last_counterexample :
    sortByDateDesc [⟨some (-86400000), 0⟩, ⟨none, 1⟩] =
      [⟨none, 1⟩, ⟨some (-86400000), 0⟩] := by decide

/-- Claim C8 as amended: the finalize sort is a permutation of its input,
sorted descending by timestamp with a missing date keyed as the epoch
(timestamp 0) — hence missing dates land after all records with positive
timestamps but before records dated before 1970 — and the records dated
[2024-01-01, null, 2024-03-01] indeed come out as
[2024-03-01, 2024-01-01, null]. -/
theorem sortByDateDesc_spec (l : List Bid14) :
    List.Perm (sortByDateDesc l) l ∧
    (∀ a b, List.Sublist [a, b] (sortByDateDesc l) →
      jsTime b.dataPublicacaoPncp ≤ jsTime a.dataPublicacaoPncp) ∧
    sortByDateDesc
        [⟨some 1704067200000, 0⟩, ⟨none, 1⟩, ⟨some 1709251200000, 2⟩] =
      [⟨some 1709251200000, 2⟩, ⟨some 1704067200000, 0⟩, ⟨none, 1⟩] := by
  refine ⟨List.perm_insertionSort cmpDesc l, ?_, by decide⟩
  intro a b hsub
  have hs : List.Sorted cmpDesc (sortByDateDesc l) :=
    List.sorted_insertionSort cmpDesc l
  have hpair : List.Sorted cmpDesc [a, b] := List.Pairwise.sublist hsub hs
  exact List.rel_of_sorted_cons hpair b (by simp)

/-- Witness for claim C8 as amended: in the sorted two-record list with one
dated and one missing-date record, the adjacent pair satisfies the
descending-timestamp relation. -/
theorem sortByDateDesc_spec_witness :
    jsTime (Bid14.mk none 1).dataPublicacaoPncp ≤
      jsTime (Bid14.mk (some 1704067200000) 0).dataPublicacaoPncp :=
  (sortByDateDesc_spec [⟨some 1704067200000, 0⟩, ⟨none, 1⟩]).2.1
    ⟨some 1704067200000, 0⟩ ⟨none, 1⟩ (by decide)

/-! Section: keyword predicates at store-read time and at finalize time -/

/-- ASCII lowering of one character, as toLowerCase and ILIKE do on the
ASCII range. -/
def jsCharLower (c : Char) : Char :=
  if 65 ≤ c.toNat ∧ c.toNat ≤ 90 then Char.ofNat (c.toNat + 32) else c

/-- Lowercased character list of a string. -/
def jsLower (s : String) : List Char :=
  s.toList.map jsCharLower

/-- JavaScript substring containment, as in includes and in an ILIKE
pattern with wildcards on both sides. -/
def jsIncludes (hay needle : List Char) : Bool :=
  hay.tails.any (fun t => needle.isPrefixOf t)

/-- Record view used by the keyword filters of the hybrid handler. -/
structure BidView where
  titulo : String
  orgao : String
  municipio : String
deriving DecidableEq

/-- Embedding of the store-read keyword predicate of searchInSupabase: a
case-insensitive substring match over titulo or orgao. -/
def storeKeywordFilter (keyword : String) (r : BidView) : Bool :=
  jsIncludes (jsLower r.titulo) (jsLower keyword) ||
    jsIncludes (jsLower r.orgao) (jsLower keyword)

/-- Embedding of the finalize keyword predicate of the hybrid handler: a
case-insensitive substring match over titulo, orgao or municipio. -/
def finalizeKeywordFilter (keyword : String) (r : BidView) : Bool :=
  jsIncludes (jsLower r.titulo) (jsLower keyword) ||
    jsIncludes (jsLower r.orgao) (jsLower keyword) ||
    jsIncludes (jsLower r.municipio) (jsLower keyword)

/-- Counterexample to claim C9: a record whose keyword occurs only in its
municipality passes the finalize filter but not the store-read filter, so
the two predicates are not equivalent. -/
theorem keyword_filter_iff_counterexample :
    finalizeKeywordFilter "campinas"
        ⟨"Aquisicao de materiais", "Prefeitura X", "Campinas"⟩ = true ∧
    storeKeywordFilter "campinas"
        ⟨"Aquisicao de materiais", "Prefeitura X", "Campinas"⟩ = false := by
  constructor <;> decide

/-- Claim C9 as amended: the finalize keyword predicate is the store-read
predicate extended with a case-insensitive substring match over the
municipality, so every record passing the store-read filter passes the
finalize filter, but not conversely. -/
theorem finalizeFilter_extends_storeFilter (keyword : String) (r : BidView) :
    finalizeKeywordFilter keyword r =
      (storeKeywordFilter keyword r ||
        jsIncludes (jsLower r.municipio) (jsLower keyword)) ∧
    (storeKeywordFilter keyword r = true → finalizeKeywordFilter keyword r = true) := by
  constructor
  · simp [finalizeKeywordFilter, storeKeywordFilter, Bool.or_assoc]
  · intro h
    simp only [finalizeKeywordFilter, storeKeywordFilter] at h ⊢
    simp only [Bool.or_eq_true] at h
    rcases h with h1 | h2
    · simp [h1]
    · simp [h2]

/-- Witness for claim C9 as amended: a record whose organization contains
the keyword passes the store-read filter and hence the finalize filter. -/
theorem finalizeFilter_extends_storeFilter_witness :
    finalizeKeywordFilter "prefeitura" ⟨"Obra de asfalto", "Prefeitura X", "Cidade"⟩ = true :=
  (finalizeFilter_extends_storeFilter "prefeitura"
      ⟨"Obra de asfalto", "Prefeitura X", "Cidade"⟩).2 (by decide)

/-! Section: finalize pagination (dedup, totalPages and page slicing) -/

/-- ECMAScript slice index resolution: a negative index counts from the
end (clamped at 0), a non-negative index is clamped at the length. -/
def jsSliceIndex (len : Nat) (i : Int) : Nat :=
  if i < 0 then ((len : Int) + i).toNat else min i.toNat len

/-- ECMAScript Array.prototype.slice on a list with integer indices. -/
def jsSlice {α : Type} (xs : List α) (s e : Int) : List α :=
  (xs.drop (jsSliceIndex xs.length s)).take
    (jsSliceIndex xs.length e - jsSliceIndex xs.length s)

/-- Embedding of the page-slicing step of the handlers: the requested page
is parseInt of the page parameter (none models NaN from a non-numeric
parameter, which the slice coerces to index 0), startIndex is
(page - 1) * 10 and the slice spans ten entries. -/
def paginate015 {α : Type} (xs : List α) (pageNum : Option Int) : List α :=
  match pageNum with
  | some p => jsSlice xs ((p - 1) * 10) ((p - 1) * 10 + 10)
  | none => jsSlice xs 0 0

/-- Helper: a slice is a contiguous segment of the list it slices. -/
theorem jsSlice_isInfix {α : Type} (xs : List α) (s e : Int) :
    List.IsInfix (jsSlice xs s e) xs := by
  refine ⟨xs.take (jsSliceIndex xs.length s),
    (xs.drop (jsSliceIndex xs.length s)).drop
      (jsSliceIndex xs.length e - jsSliceIndex xs.length s), ?_⟩
  rw [jsSlice, List.append_assoc, List.take_append_drop, List.take_append_drop]

/-- Counterexample to claim C10: a negative page number does not produce an
empty item list; with 25 records and page -1 the slice resolves to
elements 5 through 14 by the negative-index semantics of slice. -/
theorem paginate015_negative_page_counterexample :
    paginate015 (List.range 25) (some (-1)) =
      [5, 6, 7, 8, 9, 10, 11, 12, 13, 14] := by decide

/-- Claim C10 as amended: the page slice is total and never reads out of
bounds — page 0 and a non-numeric page yield an empty list and every
integer page yields a contiguous sublist of the deduplicated list — but a
negative page can yield a non-empty window, since slice resolves negative
indices from the end of the array. -/
theorem paginate015_total_spec {α : Type} (xs : List α) (p : Int) :
    paginate015 xs (some 0) = [] ∧
    paginate015 xs none = [] ∧
    List.IsInfix (paginate015 xs (some p)) xs := by
  refine ⟨?_, ?_, ?_⟩
  · norm_num [paginate015, jsSlice, jsSliceIndex]
  · norm_num [paginate015, jsSlice, jsSliceIndex]
  · exact jsSlice_isInfix xs _ _

/-- Witness for claim C10 as amended: page 0 over 25 records yields the
empty page. -/
theorem paginate015_total_spec_witness :
    paginate015 (List.range 25) (some 0) = [] :=
  (paginate015_total_spec (List.range 25) 3).1

/-- Stored record as read back from the licitacoes table by the finalize
step: the dedup key and the publication date used by the sort. -/
structure Licitacao where
  id_pncp : String
  data_publicacao : Option Int
deriving DecidableEq

/-- Comparator of the finalize sort on stored records. -/
def cmpDescL (a b : Licitacao) : Prop :=
  jsTime b.data_publicacao ≤ jsTime a.data_publicacao

instance : DecidableRel cmpDescL := fun _ _ => Int.decLe _ _

/-- Embedding of the dedup filter of the finalize step: an element is kept
exactly when no earlier element carries the same id_pncp. -/
def dedupByIdAux (seen : List String) : List Licitacao → List Licitacao
  | [] => []
  | x :: xs =>
    if x.id_pncp ∈ seen then dedupByIdAux seen xs
    else x :: dedupByIdAux (x.id_pncp :: seen) xs

/-- Deduplication by id_pncp, first occurrence wins. -/
def dedupById (l : List Licitacao) : List Licitacao :=
  dedupByIdAux [] l

/-- Embedding of Math.ceil(count / 10): the count is divided as a
JavaScript number (modelled over the rationals) and rounded up. -/
def totalPagesOf (count : Nat) : Nat :=
  (Int.ceil ((count : ℚ) / 10)).toNat

/-- Page envelope returned by the hybrid handler. -/
structure PageResponse where
  data : List Licitacao
  total : Nat
  totalPages : Nat
  currentPage : Option Int
  hasNextPage : Bool
  hasPrevPage : Bool
deriving DecidableEq

/-- Embedding of the finalize step of the hybrid handler: dedup by
id_pncp, sort by publication date descending, compute totalPages with
Math.ceil over ten items per page, and slice the requested page. -/
def finalize015 (supabaseResults : List Licitacao) (pageNum : Option Int) :
    PageResponse :=
  { data := paginate015 (List.insertionSort cmpDescL (dedupById supabaseResults)) pageNum
    total := (List.insertionSort cmpDescL (dedupById supabaseResults)).length
    totalPages := totalPagesOf (List.insertionSort cmpDescL (dedupById supabaseResults)).length
    currentPage := pageNum
    hasNextPage :=
      match pageNum with
      | some p => decide (p < (totalPagesOf (List.insertionSort cmpDescL (dedupById supabaseResults)).length : Int))
      | none => false
    hasPrevPage :=
      match pageNum with
      | some p => decide (p > 1)
      | none => false }

/-- Helper: Math.ceil of count / 10 equals natural ceiling division. -/
theorem totalPagesOf_eq (n : Nat) : totalPagesOf n = (n + 9) / 10 := by
  set q : Nat := (n + 9) / 10 with hqdef
  have hq1 : 10 * q ≤ n + 9 := by omega
  have hq2 : n ≤ 10 * q := by omega
  have hcq1 : 10 * (q : ℚ) ≤ (n : ℚ) + 9 := by exact_mod_cast hq1
  have hcq2 : (n : ℚ) ≤ 10 * (q : ℚ) := by exact_mod_cast hq2
  have hle : Int.ceil ((n : ℚ) / 10) ≤ (q : Int) := by
    rw [Int.ceil_le, div_le_iff₀ (by norm_num : (0 : ℚ) < 10)]
    push_cast
    linarith
  have hgt : (q : Int) - 1 < Int.ceil ((n : ℚ) / 10) := by
    rw [Int.lt_ceil, lt_div_iff₀ (by norm_num : (0 : ℚ) < 10)]
    push_cast
    linarith
  have heq : Int.ceil ((n : ℚ) / 10) = (q : Int) := le_antisymm hle (by linarith)
  rw [totalPagesOf, heq]
  simp

/-- Counterexample to claim C1: a query whose deduplicated, filtered item
list is empty gets totalPages = 0 from the finalize step, not the claimed
minimum of 1. -/
theorem finalize015_empty_totalPages_zero :
    (finalize015 [] (some 1)).totalPages = 0 := by
  have h : (finalize015 [] (some 1)).totalPages = totalPagesOf 0 := rfl
  rw [h, totalPagesOf_eq]

/-- Claim C1 as amended: the finalize step computes
totalPages = ceil(count / 10) with NO floor of 1 applied: totalPages is at
least 1 exactly when the deduplicated item list is nonempty, and is 0 for
an empty result set. -/
theorem finalize015_totalPages_formula (results : List Licitacao)
    (pageNum : Option Int) :
    (finalize015 results pageNum).totalPages = ((dedupById results).length + 9) / 10 ∧
    (1 ≤ (finalize015 results pageNum).totalPages ↔ dedupById results ≠ []) := by
  have hlen : (List.insertionSort cmpDescL (dedupById results)).length =
      (dedupById results).length :=
    (List.perm_insertionSort cmpDescL (dedupById results)).length_eq
  have h1 : (finalize015 results pageNum).totalPages =
      ((dedupById results).length + 9) / 10 := by
    show totalPagesOf (List.insertionSort cmpDescL (dedupById results)).length = _
    rw [hlen, totalPagesOf_eq]
  refine ⟨h1, ?_⟩
  rw [h1, ne_eq, ← List.length_eq_zero]
  omega

/-- Witness for claim C1 as amended: one stored record makes totalPages
positive. -/
theorem finalize015_totalPages_formula_witness :
    1 ≤ (finalize015 [⟨"a", none⟩] (some 1)).totalPages ↔
      dedupById [⟨"a", none⟩] ≠ [] :=
  (finalize015_totalPages_formula [⟨"a", none⟩] (some 1)).2

/-- Witness for claim C7 as amended: three rate-limit responses exhaust
the ceiling with the exponential waits and end in the null outcome. -/
theorem fetchWithRetry_backoff_spec_witness :
    fetchWithRetry [.tooManyRequests, .tooManyRequests, .tooManyRequests] =
      (.nullResult, [1000 * 2 ^ 1, 1000 * 2 ^ 2, 1000 * 2 ^ 3]) :=
  fetchWithRetry_backoff_spec.2 []
